import Mathlib

set_option maxRecDepth 10000

/-!
Shallow embedding of the query-construction core of the FERC EQR Explorer
dashboard (src/app.py): the static region catalog `BA_REGIONS` with its
flattening `ALL_BAS_FLAT`, the conjunctive predicate builder
`build_where_clause`, and the two query composers `fetch_market_trends`
and `fetch_leaderboard`.

Conditions of the WHERE clause are modelled as a structured inductive
`Cond`, one constructor per f-string the source appends to its `where`
list; `Cond.render` maps each constructor to the exact SQL text the
source interpolates, and `build_where_clause_str` reproduces the joined
clause (`" AND ".join(where)`).

The Python source raises `KeyError` when `BA_REGIONS[region]` is indexed
with an unknown label; the embedding returns `Option`, with `none`
standing for that uncaught lookup failure.
-/

/-- The `BA_REGIONS` dict of src/app.py, in declaration order. -/
def BA_REGIONS : List (String × List String) :=
  [("All Regions", ["All Regions"]),
   ("California (CISO)", ["CISO", "BANC", "IID", "LDWP", "TIDC", "WALC"]),
   ("Northwest (NW)", ["BPAT", "AVA", "CHPD", "DOPD", "GCPD", "GRID", "IPCO", "NWMT",
      "PACE", "PACW", "PGE", "PSEI", "SCL", "TPWR", "WAUW"]),
   ("Southwest (SW)", ["AZPS", "EPE", "NEVP", "PNM", "SRP", "TEPC", "WALC", "WACM"]),
   ("Midwest (MISO)", ["MISO", "ALTE", "ALTW", "AMIL", "AMMO", "AMRN", "BREC", "CIN",
      "CONS", "DECO", "DPC", "GRE", "HE", "IPL", "MEC", "MECS", "MP", "NSP", "OTP",
      "SIGE", "SMP", "UPPC", "WEC", "WPS"]),
   ("Central (SPP)", ["SPP", "AECI", "EDE", "GRDA", "INDN", "KCPL", "LES", "NPPD",
      "OKGE", "OPPD", "SPA", "SPS", "SWPP", "WAUE", "WFEC", "WR"]),
   ("Southeast (SE)", ["SOCO", "AEC", "CPLE", "CPLW", "DUK", "FPC", "FPL", "GVL",
      "HST", "JEA", "LGEE", "SC", "SCEG", "TAL", "TEC", "TVA", "YAD"]),
   ("Mid-Atlantic (PJM)", ["PJM", "AEBN", "AEP", "AP", "BC", "CE", "DAY", "DE", "DL",
      "DOM", "DPL", "DUQ", "EKPC", "FE", "JC", "ME", "PE", "PEP", "PL", "PN", "PS", "RE"]),
   ("New York (NYISO)", ["NYIS"]),
   ("New England (ISONE)", ["ISNE"]),
   ("Canada / Other", ["AESO", "BCHA", "CFE", "HQT", "IESO", "MHEB", "NBSO", "SPC"])]

/-- `ALL_BAS_FLAT = sorted({ba for bas in BA_REGIONS.values() for ba in bas
    if ba != "All Regions"})`: flatten every region's code list, drop the
    synthetic "All Regions" code, deduplicate (the Python set) and sort. -/
def ALL_BAS_FLAT : List String :=
  ((((BA_REGIONS.map Prod.snd).flatten.filter (fun ba => ba ≠ "All Regions")).dedup).mergeSort
    (fun a b => a ≤ b))

/-- One condition of the WHERE clause: one constructor per f-string the
    source's `build_where_clause` appends to its `where` list. -/
inductive Cond where
  | productEq (product : String)
  | termLT
  | unitEq (unit : String)
  | ratePos
  | yearBetween (startYear endYear : Int)
  | baEq (ba : String)
  | baIn (codes : List String)
  | affiliateEq (isAffiliate : Bool)
  | productTypeEq (code : String)
  | classEq (code : String)
  deriving DecidableEq, Repr

/-- The exact SQL text the source interpolates for each condition. -/
def Cond.render : Cond → String
  | .productEq p => s!"product_name = '{p}'"
  | .termLT => "term_name = 'LT'"
  | .unitEq u => s!"rate_units = '{u}'"
  | .ratePos => "rate > 0"
  | .yearBetween a b => s!"CAST(substr(year_quarter, 1, 4) AS INTEGER) BETWEEN {a} AND {b}"
  | .baEq ba => s!"point_of_delivery_balancing_authority = '{ba}'"
  | .baIn codes =>
      "point_of_delivery_balancing_authority IN ('" ++ String.intercalate "', '" codes ++ "')"
  | .affiliateEq b => "contract_affiliate = " ++ (if b then "TRUE" else "FALSE")
  | .productTypeEq c => s!"product_type_name = '{c}'"
  | .classEq c => s!"class_name = '{c}'"

/-- Regional block of `build_where_clause` (src/app.py lines 74-80):
    a single-code equality when the BA selection is neither the per-region
    wildcard nor "All Regions"; else an IN-list over `BA_REGIONS[region]`
    when the region is not "All Regions" (`none` = the `KeyError` of an
    unknown label); else nothing. -/
def regional_conds (region ba_selection : String) : Option (List Cond) :=
  if ba_selection ≠ "All BAs in " ++ region ∧ ba_selection ≠ "All Regions" then
    some [Cond.baEq ba_selection]
  else if region ≠ "All Regions" then
    match BA_REGIONS.lookup region with
    | some regional_bas => some [Cond.baIn regional_bas]
    | none => none
  else
    some []

/-- Affiliate block (lines 82-84). -/
def affiliate_conds (affiliate : String) : List Cond :=
  if affiliate ≠ "All" then [Cond.affiliateEq (affiliate == "Affiliate")] else []

/-- Rate-basis block (lines 87-90). -/
def rate_type_conds (rate_type : String) : List Cond :=
  if rate_type = "Market-Based" then [Cond.productTypeEq "MB"]
  else if rate_type = "Cost-Based" then [Cond.productTypeEq "CB"]
  else []

/-- Service-class block (lines 93-96); "All" adds nothing. -/
def service_conds (service_type : String) : List Cond :=
  if service_type = "Firm" then [Cond.classEq "F"]
  else if service_type = "Non-Firm" then [Cond.classEq "NF"]
  else []

/-- `build_where_clause` of src/app.py as the ordered list of conditions it
    joins: four fixed conditions, the year bound, then the optional
    regional, affiliate, rate-basis and service-class blocks in source
    order. `none` models the uncaught `KeyError` on an unknown region. -/
def build_where_clause (product region ba_selection affiliate rate_type service_type : String)
    (year_range : Int × Int) : Option (List Cond) :=
  let unit := if product = "ENERGY" then "$/MWH" else "$/KW-MO"
  let base : List Cond :=
    [Cond.productEq product, Cond.termLT, Cond.unitEq unit, Cond.ratePos] ++
      [Cond.yearBetween year_range.1 year_range.2]
  match regional_conds region ba_selection with
  | none => none
  | some reg =>
      some (base ++ reg ++ affiliate_conds affiliate ++
        rate_type_conds rate_type ++ service_conds service_type)

/-- The joined WHERE string the source returns: `" AND ".join(where)`. -/
def build_where_clause_str (product region ba_selection affiliate rate_type service_type : String)
    (year_range : Int × Int) : Option String :=
  (build_where_clause product region ba_selection affiliate rate_type service_type
    year_range).map (fun l => String.intercalate " AND " (l.map Cond.render))

/-- A row of the contracts dataset, restricted to the columns the WHERE
    clause mentions. `rate` is the contract price (its only use here is the
    sign test `rate > 0`). -/
structure Row where
  product_name : String
  term_name : String
  rate_units : String
  rate : Int
  year_quarter : String
  point_of_delivery_balancing_authority : String
  contract_affiliate : Bool
  product_type_name : String
  class_name : String

/-- `CAST(substr(year_quarter, 1, 4) AS INTEGER)`: the first four
    characters of the period identifier parsed as a natural number
    (`none` when not numeric, where the engine would error out and in
    particular match no bound). Irreducible so predicate-level proofs
    treat it as an opaque primitive. -/
@[irreducible] def yearPrefix (yq : String) : Option Nat :=
  (yq.take 4).toNat?

/-- Whether a row satisfies one condition, following DuckDB's reading of
    the rendered SQL. -/
def Cond.eval (r : Row) : Cond → Bool
  | .productEq p => r.product_name == p
  | .termLT => r.term_name == "LT"
  | .unitEq u => r.rate_units == u
  | .ratePos => decide (0 < r.rate)
  | .yearBetween a b =>
      match yearPrefix r.year_quarter with
      | some y => decide (a ≤ (y : Int) ∧ (y : Int) ≤ b)
      | none => false
  | .baEq ba => r.point_of_delivery_balancing_authority == ba
  | .baIn codes => codes.contains r.point_of_delivery_balancing_authority
  | .affiliateEq b => r.contract_affiliate == b
  | .productTypeEq c => r.product_type_name == c
  | .classEq c => r.class_name == c

/-- A row satisfies the conjunctive predicate when it satisfies every
    condition. -/
def evalPred (conds : List Cond) (r : Row) : Bool :=
  conds.all (fun c => c.eval r)

/-- The parquet glob both queries read (src/app.py lines 103 and 121). -/
def s3_path : String := "s3://pudl.catalyst.coop/ferceqr/core_ferceqr__contracts/*.parquet"

/-- The trend query of `fetch_market_trends` (src/app.py lines 106-116):
    its SELECT expressions in order, the data source, the embedded WHERE
    conditions, and the 1-based positional GROUP BY / ORDER BY columns. -/
structure TrendQuery where
  selectExprs : List String
  source : String
  whereConds : List Cond
  groupByIndex : Nat
  orderByIndex : Nat
  deriving DecidableEq, Repr

/-- The leaderboard query of `fetch_leaderboard` (src/app.py lines
    126-136): the grouping column aliased to entity_name, the two
    aggregate SELECT expressions, the source, the embedded WHERE
    conditions, positional GROUP BY / ORDER BY, descending order flag and
    the LIMIT row count. -/
structure LeaderboardQuery where
  groupCol : String
  aggExprs : List String
  source : String
  whereConds : List Cond
  groupByIndex : Nat
  orderByIndex : Nat
  orderDescending : Bool
  rowLimit : Nat
  deriving DecidableEq, Repr

/-- `fetch_market_trends` (src/app.py lines 101-117), up to the external
    engine call: it builds the WHERE clause from the selection and embeds
    it into the fixed trend template. `none` when `build_where_clause`
    fails on an unknown region. -/
def fetch_market_trends (product region ba affiliate rate_type service_type : String)
    (year_range : Int × Int) : Option TrendQuery :=
  (build_where_clause product region ba affiliate rate_type service_type year_range).map
    (fun w =>
      { selectExprs := ["year_quarter",
          "approx_quantile(rate, 0.5) as median_price",
          "approx_quantile(rate, 0.25) as p25_price",
          "approx_quantile(rate, 0.75) as p75_price",
          "count(*) as contract_count"],
        source := s3_path,
        whereConds := w,
        groupByIndex := 1,
        orderByIndex := 1 })

/-- `fetch_leaderboard` (src/app.py lines 119-137), up to the external
    engine call: same WHERE clause, grouped by the role-selected identity
    column, ordered descending by the second SELECT column (summed
    quantity), truncated to 10 rows. -/
def fetch_leaderboard (entity_type product region ba affiliate rate_type service_type : String)
    (year_range : Int × Int) : Option LeaderboardQuery :=
  (build_where_clause product region ba affiliate rate_type service_type year_range).map
    (fun w =>
      { groupCol := if entity_type = "seller" then "seller_company_name"
          else "customer_company_name",
        aggExprs := ["sum(quantity) as total_volume", "count(*) as contracts_count"],
        source := s3_path,
        whereConds := w,
        groupByIndex := 1,
        orderByIndex := 2,
        orderDescending := true,
        rowLimit := 10 })

/-- Regional-scope conditions: the single-code equality or the IN-list. -/
def Cond.isRegional : Cond → Bool
  | .baEq _ => true
  | .baIn _ => true
  | _ => false

/-- Affiliate-flag conditions. -/
def Cond.isAffiliate : Cond → Bool
  | .affiliateEq _ => true
  | _ => false

/-- Rate-basis conditions (on the product_type_name code column). -/
def Cond.isRate : Cond → Bool
  | .productTypeEq _ => true
  | _ => false

/-- Service-class conditions (on the class_name code column). -/
def Cond.isService : Cond → Bool
  | .classEq _ => true
  | _ => false

example :
    build_where_clause "ENERGY" "All Regions" "All Regions" "All" "All" "All" (2013, 2025) =
      some [Cond.productEq "ENERGY", Cond.termLT, Cond.unitEq "$/MWH", Cond.ratePos,
        Cond.yearBetween 2013 2025] := by
  decide

lemma regional_conds_shape (region ba : String) (reg : List Cond)
    (h : regional_conds region ba = some reg) :
    reg = [] ∨ (∃ b, reg = [Cond.baEq b]) ∨ (∃ codes, reg = [Cond.baIn codes]) := by
  unfold regional_conds at h
  split at h
  · exact Or.inr (Or.inl ⟨ba, by simpa using h.symm⟩)
  · split at h
    · cases hl : BA_REGIONS.lookup region with
      | none => rw [hl] at h; cases h
      | some codes =>
          rw [hl] at h
          exact Or.inr (Or.inr ⟨codes, by simpa using h.symm⟩)
    · exact Or.inl (by simpa using h.symm)

lemma affiliate_conds_shape (affiliate : String) :
    affiliate_conds affiliate = [] ∨
      ∃ b, affiliate_conds affiliate = [Cond.affiliateEq b] := by
  unfold affiliate_conds
  split
  · exact Or.inr ⟨affiliate == "Affiliate", rfl⟩
  · exact Or.inl rfl

lemma rate_type_conds_shape (rate_type : String) :
    rate_type_conds rate_type = [] ∨
      ∃ c, rate_type_conds rate_type = [Cond.productTypeEq c] := by
  unfold rate_type_conds
  split
  · exact Or.inr ⟨"MB", rfl⟩
  · split
    · exact Or.inr ⟨"CB", rfl⟩
    · exact Or.inl rfl

lemma service_conds_shape (service_type : String) :
    service_conds service_type = [] ∨
      ∃ c, service_conds service_type = [Cond.classEq c] := by
  unfold service_conds
  split
  · exact Or.inr ⟨"F", rfl⟩
  · split
    · exact Or.inr ⟨"NF", rfl⟩
    · exact Or.inl rfl

/-- Every successful `build_where_clause` is the five fixed conditions
    followed by the four optional blocks in source order. -/
lemma build_where_clause_eq (product region ba affiliate rate_type service_type : String)
    (yr : Int × Int) (l : List Cond)
    (h : build_where_clause product region ba affiliate rate_type service_type yr = some l) :
    ∃ reg, regional_conds region ba = some reg ∧
      l = [Cond.productEq product, Cond.termLT,
            Cond.unitEq (if product = "ENERGY" then "$/MWH" else "$/KW-MO"), Cond.ratePos,
            Cond.yearBetween yr.1 yr.2] ++ reg ++ affiliate_conds affiliate ++
          rate_type_conds rate_type ++ service_conds service_type := by
  unfold build_where_clause at h
  cases hr : regional_conds region ba with
  | none => rw [hr] at h; cases h
  | some reg =>
      rw [hr] at h
      exact ⟨reg, rfl, by simpa using h.symm⟩

example :
    build_where_clause_str "ENERGY" "All Regions" "CISO" "Affiliate" "Market-Based" "Firm"
        (2020, 2022) =
      some ("product_name = 'ENERGY' AND term_name = 'LT' AND rate_units = '$/MWH' AND " ++
        "rate > 0 AND CAST(substr(year_quarter, 1, 4) AS INTEGER) BETWEEN 2020 AND 2022 AND " ++
        "point_of_delivery_balancing_authority = 'CISO' AND contract_affiliate = TRUE AND " ++
        "product_type_name = 'MB' AND class_name = 'F'") := by
  decide

/-- C1 (amended): for the selection {product=ENERGY, region="All Regions",
    scope="All Regions", affiliate=All, rate=All, service=All,
    years=(2013,2025)}, `build_where_clause` produces exactly five
    conditions — the product equality, the long-term term constant, the
    unit equality, the positive-rate condition and the year-range bound —
    with no regional, affiliate, rate-basis or service-class condition. -/
theorem c1_all_wildcards_predicate :
    build_where_clause "ENERGY" "All Regions" "All Regions" "All" "All" "All" (2013, 2025) =
        some [Cond.productEq "ENERGY", Cond.termLT, Cond.unitEq "$/MWH", Cond.ratePos,
          Cond.yearBetween 2013 2025] ∧
      (build_where_clause "ENERGY" "All Regions" "All Regions" "All" "All" "All"
          (2013, 2025)).map List.length = some 5 := by
  decide

/-- C1 counterexample: that predicate has five conditions, not four as the
    claim counts. -/
theorem c1_counterexample :
    (build_where_clause "ENERGY" "All Regions" "All Regions" "All" "All" "All"
        (2013, 2025)).map List.length = some 5 ∧
      some (5 : Nat) ≠ some 4 :=
  ⟨by decide, by decide⟩

/-- C2 (amended): `build_where_clause` performs no start>end validation:
    for a year range with start > end it still produces a predicate, whose
    year-range bound (BETWEEN start AND end) is satisfied by no row, so the
    whole predicate rejects every row. -/
theorem c2_inverted_year_range_unsatisfiable :
    ∀ (product region ba affiliate rate_type service_type : String) (s e : Int)
      (l : List Cond),
      e < s →
      build_where_clause product region ba affiliate rate_type service_type (s, e) = some l →
      Cond.yearBetween s e ∈ l ∧
        (∀ row : Row, (Cond.yearBetween s e).eval row = false) ∧
        ∀ row : Row, evalPred l row = false := by
  intro product region ba affiliate rate_type service_type s e l hlt h
  obtain ⟨reg, -, rfl⟩ := build_where_clause_eq product region ba affiliate rate_type
    service_type (s, e) l h
  have hmem : Cond.yearBetween s e ∈
      ([Cond.productEq product, Cond.termLT,
          Cond.unitEq (if product = "ENERGY" then "$/MWH" else "$/KW-MO"), Cond.ratePos,
          Cond.yearBetween s e] ++ reg ++ affiliate_conds affiliate ++
        rate_type_conds rate_type ++ service_conds service_type) := by
    simp
  have heval : ∀ row : Row, (Cond.yearBetween s e).eval row = false := by
    intro row
    unfold Cond.eval
    cases yearPrefix row.year_quarter with
    | none => rfl
    | some y => simp; omega
  refine ⟨hmem, heval, fun row => ?_⟩
  exact List.all_eq_false.mpr ⟨Cond.yearBetween s e, hmem, by rw [heval row]; simp⟩

/-- C2 witness: the theorem at {ENERGY, All Regions, wildcard scope, All,
    All, All, years=(2020,2013)}. -/
theorem c2_witness :
    Cond.yearBetween 2020 2013 ∈
        [Cond.productEq "ENERGY", Cond.termLT, Cond.unitEq "$/MWH", Cond.ratePos,
          Cond.yearBetween 2020 2013] ∧
      (∀ row : Row, (Cond.yearBetween 2020 2013).eval row = false) ∧
      ∀ row : Row,
        evalPred [Cond.productEq "ENERGY", Cond.termLT, Cond.unitEq "$/MWH", Cond.ratePos,
          Cond.yearBetween 2020 2013] row = false :=
  c2_inverted_year_range_unsatisfiable "ENERGY" "All Regions" "All Regions" "All" "All" "All"
    2020 2013 _ (by decide) (by decide)

/-- C2 counterexample: the inverted range (2020, 2013) is not rejected —
    a predicate is still produced. -/
theorem c2_counterexample :
    build_where_clause "ENERGY" "All Regions" "All Regions" "All" "All" "All" (2020, 2013) =
      some [Cond.productEq "ENERGY", Cond.termLT, Cond.unitEq "$/MWH", Cond.ratePos,
        Cond.yearBetween 2020 2013] := by
  decide

/-- C3: `ALL_BAS_FLAT` is duplicate-free and contains exactly the codes of
    the concrete (non-"All Regions") regions; the synthetic "All Regions"
    entry is excluded from the union. -/
theorem c3_all_bas_flat_is_dedup_union :
    ALL_BAS_FLAT.Nodup ∧
      (∀ c : String, c ∈ ALL_BAS_FLAT ↔
        ∃ p ∈ BA_REGIONS, p.1 ≠ "All Regions" ∧ c ∈ p.2) ∧
      "All Regions" ∉ ALL_BAS_FLAT := by
  have fact1 : ∀ p ∈ BA_REGIONS, p.1 = "All Regions" → p.2 = ["All Regions"] := by decide
  have fact2 : ∀ p ∈ BA_REGIONS, p.1 ≠ "All Regions" → "All Regions" ∉ p.2 := by decide
  have hmem : ∀ c : String, c ∈ ALL_BAS_FLAT ↔
      ∃ p ∈ BA_REGIONS, p.1 ≠ "All Regions" ∧ c ∈ p.2 := by
    intro c
    unfold ALL_BAS_FLAT
    rw [List.mem_mergeSort, List.mem_dedup, List.mem_filter]
    simp only [List.mem_flatten, List.mem_map]
    constructor
    · rintro ⟨⟨codes, ⟨p, hp, rfl⟩, hcp⟩, hne⟩
      have hne' : c ≠ "All Regions" := by simpa using hne
      refine ⟨p, hp, fun h1 => ?_, hcp⟩
      have := fact1 p hp h1
      rw [this] at hcp
      simp at hcp
      exact hne' hcp
    · rintro ⟨p, hp, h1, hcp⟩
      refine ⟨⟨p.2, ⟨p, hp, rfl⟩, hcp⟩, ?_⟩
      have : c ≠ "All Regions" := fun h => fact2 p hp h1 (h ▸ hcp)
      simpa using this
  refine ⟨?_, hmem, ?_⟩
  · exact (List.mergeSort_perm _ _).symm.nodup (List.nodup_dedup _)
  · intro h
    obtain ⟨p, hp, h1, hcp⟩ := (hmem "All Regions").mp h
    exact fact2 p hp h1 hcp

/-- C4: the trend query and the leaderboard query embed the very WHERE
    clause `build_where_clause` returns — so on any one selection the two
    predicates are identical, condition for condition and in order. -/
theorem c4_trend_leaderboard_same_predicate :
    ∀ (entity_type product region ba affiliate rate_type service_type : String)
      (yr : Int × Int),
      (fetch_market_trends product region ba affiliate rate_type service_type yr).map
          TrendQuery.whereConds =
        build_where_clause product region ba affiliate rate_type service_type yr ∧
      (fetch_leaderboard entity_type product region ba affiliate rate_type service_type
            yr).map LeaderboardQuery.whereConds =
        build_where_clause product region ba affiliate rate_type service_type yr ∧
      (fetch_market_trends product region ba affiliate rate_type service_type yr).map
          TrendQuery.whereConds =
        (fetch_leaderboard entity_type product region ba affiliate rate_type service_type
            yr).map LeaderboardQuery.whereConds := by
  intro entity_type product region ba affiliate rate_type service_type yr
  unfold fetch_market_trends fetch_leaderboard
  cases build_where_clause product region ba affiliate rate_type service_type yr <;>
    exact ⟨rfl, rfl, rfl⟩

/-- C5: the regional block follows the three-way tie-break — a single
    explicit code (neither the per-region wildcard nor "All Regions")
    yields exactly its equality condition; otherwise a region other than
    "All Regions" yields exactly the IN-list over that region's full code
    set; otherwise no regional condition — and the regional conditions of
    the built predicate are exactly that block. -/
theorem c5_regional_tie_break :
    ∀ (product region ba affiliate rate_type service_type : String) (yr : Int × Int),
      (build_where_clause product region ba affiliate rate_type service_type yr).map
          (fun l => l.filter Cond.isRegional) =
        regional_conds region ba ∧
      (ba ≠ "All BAs in " ++ region ∧ ba ≠ "All Regions" →
        regional_conds region ba = some [Cond.baEq ba]) ∧
      (¬(ba ≠ "All BAs in " ++ region ∧ ba ≠ "All Regions") → region ≠ "All Regions" →
        regional_conds region ba =
          (BA_REGIONS.lookup region).map (fun codes => [Cond.baIn codes])) ∧
      (¬(ba ≠ "All BAs in " ++ region ∧ ba ≠ "All Regions") → region = "All Regions" →
        regional_conds region ba = some []) := by
  intro product region ba affiliate rate_type service_type yr
  refine ⟨?_, ?_, ?_, ?_⟩
  · cases h : regional_conds region ba with
    | none =>
        have hb : build_where_clause product region ba affiliate rate_type service_type yr =
            none := by
          unfold build_where_clause; rw [h]
        rw [hb]
        rfl
    | some reg =>
        have hb : build_where_clause product region ba affiliate rate_type service_type yr =
            some ([Cond.productEq product, Cond.termLT,
                Cond.unitEq (if product = "ENERGY" then "$/MWH" else "$/KW-MO"), Cond.ratePos,
                Cond.yearBetween yr.1 yr.2] ++ reg ++ affiliate_conds affiliate ++
              rate_type_conds rate_type ++ service_conds service_type) := by
          unfold build_where_clause; rw [h]; rfl
        rw [hb]
        rcases regional_conds_shape region ba reg h with rfl | ⟨b, rfl⟩ | ⟨codes, rfl⟩ <;>
          rcases affiliate_conds_shape affiliate with ha | ⟨ab, ha⟩ <;>
          rcases rate_type_conds_shape rate_type with hr | ⟨rc, hr⟩ <;>
          rcases service_conds_shape service_type with hs | ⟨sc, hs⟩ <;>
          simp [List.filter_append, ha, hr, hs, Cond.isRegional, List.filter]
  · intro hcond
    unfold regional_conds
    rw [if_pos hcond]
  · intro hcond h2
    unfold regional_conds
    rw [if_neg hcond, if_pos h2]
    cases BA_REGIONS.lookup region <;> rfl
  · intro hcond h2
    unfold regional_conds
    rw [if_neg hcond, if_neg (fun hne => hne h2)]

/-- C6: with rate-basis "Market-Based" the predicate carries exactly one
    rate-basis condition, the MB equality, no CB condition, and every
    non-rate-basis condition agrees with the "All" predicate, which carries
    no rate-basis condition at all. -/
theorem c6_rate_basis_filter :
    ∀ (product region ba affiliate service_type : String) (yr : Int × Int) (l l' : List Cond),
      build_where_clause product region ba affiliate "Market-Based" service_type yr = some l →
      build_where_clause product region ba affiliate "All" service_type yr = some l' →
      l.filter Cond.isRate = [Cond.productTypeEq "MB"] ∧
        Cond.productTypeEq "CB" ∉ l ∧
        l'.filter Cond.isRate = [] ∧
        l.filter (fun c => !(Cond.isRate c)) = l' := by
  intro product region ba affiliate service_type yr l l' h h'
  obtain ⟨reg, hreg, rfl⟩ := build_where_clause_eq _ _ _ _ _ _ _ _ h
  obtain ⟨reg', hreg', rfl⟩ := build_where_clause_eq _ _ _ _ _ _ _ _ h'
  rw [hreg] at hreg'
  have hrr : reg = reg' := by injection hreg'
  subst hrr
  have hmb : rate_type_conds "Market-Based" = [Cond.productTypeEq "MB"] := by decide
  have hall : rate_type_conds "All" = [] := by decide
  rw [hmb, hall]
  rcases regional_conds_shape region ba reg hreg with rfl | ⟨b, rfl⟩ | ⟨codes, rfl⟩ <;>
    rcases affiliate_conds_shape affiliate with ha | ⟨ab, ha⟩ <;>
    rcases service_conds_shape service_type with hs | ⟨sc, hs⟩ <;>
      simp [ha, hs, List.filter_append, Cond.isRate, List.filter]

/-- C6 witness: the theorem at {ENERGY, All Regions, wildcard scope, All,
    service=All, years=(2013,2025)}. -/
theorem c6_witness :
    ([Cond.productEq "ENERGY", Cond.termLT, Cond.unitEq "$/MWH", Cond.ratePos,
        Cond.yearBetween 2013 2025, Cond.productTypeEq "MB"].filter Cond.isRate =
          [Cond.productTypeEq "MB"]) ∧
      Cond.productTypeEq "CB" ∉
        [Cond.productEq "ENERGY", Cond.termLT, Cond.unitEq "$/MWH", Cond.ratePos,
          Cond.yearBetween 2013 2025, Cond.productTypeEq "MB"] ∧
      ([Cond.productEq "ENERGY", Cond.termLT, Cond.unitEq "$/MWH", Cond.ratePos,
          Cond.yearBetween 2013 2025].filter Cond.isRate = []) ∧
      [Cond.productEq "ENERGY", Cond.termLT, Cond.unitEq "$/MWH", Cond.ratePos,
          Cond.yearBetween 2013 2025, Cond.productTypeEq "MB"].filter
          (fun c => !(Cond.isRate c)) =
        [Cond.productEq "ENERGY", Cond.termLT, Cond.unitEq "$/MWH", Cond.ratePos,
          Cond.yearBetween 2013 2025] :=
  c6_rate_basis_filter "ENERGY" "All Regions" "All Regions" "All" "All" (2013, 2025)
    _ _ (by decide) (by decide)

lemma eval_ignores_class_name (c : Cond) (h : Cond.isService c = false) (row : Row)
    (cls : String) : c.eval { row with class_name := cls } = c.eval row := by
  cases row
  cases c with
  | productEq p => rfl
  | termLT => rfl
  | unitEq u => rfl
  | ratePos => rfl
  | yearBetween a b => rfl
  | baEq b => rfl
  | baIn codes => rfl
  | affiliateEq b => rfl
  | productTypeEq code => rfl
  | classEq code => simp [Cond.isService] at h

lemma all_eval_ignores_class_name (L : List Cond) (row : Row) (cls : String)
    (h : ∀ c ∈ L, Cond.isService c = false) :
    L.all (fun c => c.eval { row with class_name := cls }) = L.all (fun c => c.eval row) := by
  induction L with
  | nil => rfl
  | cons hd tl ih =>
      simp only [List.all_cons]
      rw [eval_ignores_class_name hd (h hd (by simp)) row cls,
        ih (fun c hc => h c (by simp [hc]))]

/-- C7: with service-class "All" the predicate carries no service-class
    condition, and whether a row satisfies it does not depend on the row's
    class_name — a third-category row (e.g. unit power) passes whenever the
    other conditions hold. -/
theorem c7_service_all_unrestricted :
    ∀ (product region ba affiliate rate_type : String) (yr : Int × Int) (l : List Cond),
      build_where_clause product region ba affiliate rate_type "All" yr = some l →
      l.filter Cond.isService = [] ∧
        ∀ (row : Row) (cls : String),
          evalPred l { row with class_name := cls } = evalPred l row := by
  intro product region ba affiliate rate_type yr l h
  obtain ⟨reg, hreg, rfl⟩ := build_where_clause_eq _ _ _ _ _ _ _ _ h
  have hall : service_conds "All" = [] := by decide
  have hfilter :
      ([Cond.productEq product, Cond.termLT,
          Cond.unitEq (if product = "ENERGY" then "$/MWH" else "$/KW-MO"), Cond.ratePos,
          Cond.yearBetween yr.1 yr.2] ++ reg ++ affiliate_conds affiliate ++
        rate_type_conds rate_type ++ service_conds "All").filter Cond.isService = [] := by
    rw [hall]
    rcases regional_conds_shape region ba reg hreg with rfl | ⟨b, rfl⟩ | ⟨codes, rfl⟩ <;>
      rcases affiliate_conds_shape affiliate with ha | ⟨ab, ha⟩ <;>
      rcases rate_type_conds_shape rate_type with hr | ⟨rc, hr⟩ <;>
        simp [ha, hr, List.filter_append, Cond.isService, List.filter]
  refine ⟨hfilter, fun row cls => ?_⟩
  have hmem : ∀ c ∈ ([Cond.productEq product, Cond.termLT,
      Cond.unitEq (if product = "ENERGY" then "$/MWH" else "$/KW-MO"), Cond.ratePos,
      Cond.yearBetween yr.1 yr.2] ++ reg ++ affiliate_conds affiliate ++
      rate_type_conds rate_type ++ service_conds "All"), Cond.isService c = false := by
    intro c hc
    by_contra hne
    have htrue : Cond.isService c = true := by
      revert hne; cases Cond.isService c <;> simp
    have : c ∈ ([Cond.productEq product, Cond.termLT,
        Cond.unitEq (if product = "ENERGY" then "$/MWH" else "$/KW-MO"), Cond.ratePos,
        Cond.yearBetween yr.1 yr.2] ++ reg ++ affiliate_conds affiliate ++
        rate_type_conds rate_type ++ service_conds "All").filter Cond.isService :=
      List.mem_filter.mpr ⟨hc, htrue⟩
    rw [hfilter] at this
    cases this
  exact all_eval_ignores_class_name _ row cls hmem

/-- C7 witness: the theorem at {ENERGY, All Regions, wildcard scope,
    affiliate=All, rate=All, years=(2013,2025)}. -/
theorem c7_witness :
    ([Cond.productEq "ENERGY", Cond.termLT, Cond.unitEq "$/MWH", Cond.ratePos,
        Cond.yearBetween 2013 2025].filter Cond.isService = []) ∧
      ∀ (row : Row) (cls : String),
        evalPred [Cond.productEq "ENERGY", Cond.termLT, Cond.unitEq "$/MWH", Cond.ratePos,
            Cond.yearBetween 2013 2025] { row with class_name := cls } =
          evalPred [Cond.productEq "ENERGY", Cond.termLT, Cond.unitEq "$/MWH", Cond.ratePos,
            Cond.yearBetween 2013 2025] row :=
  c7_service_all_unrestricted "ENERGY" "All Regions" "All Regions" "All" "All" (2013, 2025)
    _ (by decide)

/-- C8: on the same selection the seller and buyer leaderboard queries
    agree on every component — predicate, aggregates, source, grouping and
    ordering positions, descending order and the top-10 truncation — and
    differ only in the grouping/identity column. -/
theorem c8_leaderboard_roles_differ_only_in_group_col :
    ∀ (product region ba affiliate rate_type service_type : String) (yr : Int × Int)
      (l : List Cond),
      build_where_clause product region ba affiliate rate_type service_type yr = some l →
      fetch_leaderboard "seller" product region ba affiliate rate_type service_type yr =
          some { groupCol := "seller_company_name",
                 aggExprs := ["sum(quantity) as total_volume", "count(*) as contracts_count"],
                 source := s3_path, whereConds := l, groupByIndex := 1, orderByIndex := 2,
                 orderDescending := true, rowLimit := 10 } ∧
        fetch_leaderboard "buyer" product region ba affiliate rate_type service_type yr =
          some { groupCol := "customer_company_name",
                 aggExprs := ["sum(quantity) as total_volume", "count(*) as contracts_count"],
                 source := s3_path, whereConds := l, groupByIndex := 1, orderByIndex := 2,
                 orderDescending := true, rowLimit := 10 } := by
  intro product region ba affiliate rate_type service_type yr l h
  unfold fetch_leaderboard
  rw [h]
  exact ⟨by simp, by simp⟩

/-- C8 witness: the theorem at the all-wildcard ENERGY selection. -/
theorem c8_witness :
    fetch_leaderboard "seller" "ENERGY" "All Regions" "All Regions" "All" "All" "All"
          (2013, 2025) =
        some { groupCol := "seller_company_name",
               aggExprs := ["sum(quantity) as total_volume", "count(*) as contracts_count"],
               source := s3_path,
               whereConds := [Cond.productEq "ENERGY", Cond.termLT, Cond.unitEq "$/MWH",
                 Cond.ratePos, Cond.yearBetween 2013 2025],
               groupByIndex := 1, orderByIndex := 2, orderDescending := true,
               rowLimit := 10 } ∧
      fetch_leaderboard "buyer" "ENERGY" "All Regions" "All Regions" "All" "All" "All"
          (2013, 2025) =
        some { groupCol := "customer_company_name",
               aggExprs := ["sum(quantity) as total_volume", "count(*) as contracts_count"],
               source := s3_path,
               whereConds := [Cond.productEq "ENERGY", Cond.termLT, Cond.unitEq "$/MWH",
                 Cond.ratePos, Cond.yearBetween 2013 2025],
               groupByIndex := 1, orderByIndex := 2, orderDescending := true,
               rowLimit := 10 } :=
  c8_leaderboard_roles_differ_only_in_group_col "ENERGY" "All Regions" "All Regions" "All"
    "All" "All" (2013, 2025) _ (by decide)

/-- C9 (amended): an unknown region label is fatal only when the scope
    choice is the per-region wildcard or "All Regions" — then the lookup
    raises (modelled `none`); with a single explicit entity code the
    region map is never consulted and construction succeeds with that
    code's equality condition. -/
theorem c9_unknown_region_partial :
    ∀ (product region ba affiliate rate_type service_type : String) (yr : Int × Int),
      (BA_REGIONS.lookup region = none →
        (ba = "All BAs in " ++ region ∨ ba = "All Regions") →
        build_where_clause product region ba affiliate rate_type service_type yr = none) ∧
      (BA_REGIONS.lookup region = none → ba ≠ "All BAs in " ++ region →
        ba ≠ "All Regions" →
        ∃ l, build_where_clause product region ba affiliate rate_type service_type yr =
            some l ∧ l.filter Cond.isRegional = [Cond.baEq ba]) := by
  intro product region ba affiliate rate_type service_type yr
  constructor
  · intro hlk hba
    have hregion : region ≠ "All Regions" := by
      intro hr
      rw [hr] at hlk
      exact absurd hlk (by decide)
    have hreg : regional_conds region ba = none := by
      unfold regional_conds
      rw [if_neg (fun hand => by rcases hba with rfl | rfl
                                 · exact hand.1 rfl
                                 · exact hand.2 rfl),
        if_pos hregion, hlk]
    unfold build_where_clause
    rw [hreg]
  · intro hlk h1 h2
    have hreg : regional_conds region ba = some [Cond.baEq ba] := by
      unfold regional_conds
      rw [if_pos ⟨h1, h2⟩]
    have hbuild : build_where_clause product region ba affiliate rate_type service_type yr =
        some ([Cond.productEq product, Cond.termLT,
            Cond.unitEq (if product = "ENERGY" then "$/MWH" else "$/KW-MO"), Cond.ratePos,
            Cond.yearBetween yr.1 yr.2] ++ [Cond.baEq ba] ++ affiliate_conds affiliate ++
          rate_type_conds rate_type ++ service_conds service_type) := by
      unfold build_where_clause
      rw [hreg]
      rfl
    refine ⟨_, hbuild, ?_⟩
    rcases affiliate_conds_shape affiliate with ha | ⟨ab, ha⟩ <;>
      rcases rate_type_conds_shape rate_type with hr | ⟨rc, hr⟩ <;>
      rcases service_conds_shape service_type with hs | ⟨sc, hs⟩ <;>
        simp [ha, hr, hs, List.filter_append, Cond.isRegional, List.filter]

/-- C9 counterexample: region "Texas" is not in the catalog, yet with the
    single explicit code "CISO" the predicate is still constructed — no
    failure is raised. -/
theorem c9_counterexample :
    BA_REGIONS.lookup "Texas" = none ∧
      build_where_clause "ENERGY" "Texas" "CISO" "All" "All" "All" (2013, 2025) =
        some [Cond.productEq "ENERGY", Cond.termLT, Cond.unitEq "$/MWH", Cond.ratePos,
          Cond.yearBetween 2013 2025, Cond.baEq "CISO"] := by
  constructor
  · decide
  · decide

lemma regional_conds_of_lookup_isSome (region ba : String)
    (h : (BA_REGIONS.lookup region).isSome) :
    ∃ reg, regional_conds region ba = some reg := by
  unfold regional_conds
  split
  · exact ⟨_, rfl⟩
  · split
    · cases hl : BA_REGIONS.lookup region with
      | none => rw [hl] at h; simp at h
      | some codes => exact ⟨_, rfl⟩
    · exact ⟨_, rfl⟩

/-- C10: for inputs drawn from the UI enumerations and a catalogued
    region, the predicate is a conjunction of 5 to 9 conditions whose
    first five are, in order, the product equality, the term constant, the
    unit equality, the positive-rate condition and the year bound; the
    optional regional, affiliate, rate-basis and service-class conditions
    follow, each at most once, in that relative order. -/
theorem c10_predicate_shape :
    ∀ (product region ba affiliate rate_type service_type : String) (yr : Int × Int),
      product ∈ ["ENERGY", "CAPACITY"] →
      affiliate ∈ ["All", "Affiliate", "Non-Affiliate"] →
      rate_type ∈ ["All", "Market-Based", "Cost-Based"] →
      service_type ∈ ["All", "Firm", "Non-Firm"] →
      (BA_REGIONS.lookup region).isSome →
      ∃ l, build_where_clause product region ba affiliate rate_type service_type yr =
          some l ∧
        l.take 5 = [Cond.productEq product, Cond.termLT,
          Cond.unitEq (if product = "ENERGY" then "$/MWH" else "$/KW-MO"), Cond.ratePos,
          Cond.yearBetween yr.1 yr.2] ∧
        5 ≤ l.length ∧ l.length ≤ 9 ∧
        ∃ r a t s, l.drop 5 = r ++ (a ++ (t ++ s)) ∧
          r.length ≤ 1 ∧ (∀ c ∈ r, Cond.isRegional c = true) ∧
          a.length ≤ 1 ∧ (∀ c ∈ a, Cond.isAffiliate c = true) ∧
          t.length ≤ 1 ∧ (∀ c ∈ t, Cond.isRate c = true) ∧
          s.length ≤ 1 ∧ (∀ c ∈ s, Cond.isService c = true) := by
  intro product region ba affiliate rate_type service_type yr hp ha hr hs hlook
  obtain ⟨reg, hreg⟩ := regional_conds_of_lookup_isSome region ba hlook
  have hb : build_where_clause product region ba affiliate rate_type service_type yr =
      some (Cond.productEq product :: Cond.termLT ::
        Cond.unitEq (if product = "ENERGY" then "$/MWH" else "$/KW-MO") :: Cond.ratePos ::
        Cond.yearBetween yr.1 yr.2 ::
        (reg ++ (affiliate_conds affiliate ++ (rate_type_conds rate_type ++
          service_conds service_type)))) := by
    unfold build_where_clause
    rw [hreg]
    simp [List.append_assoc]
  have hreg_shape := regional_conds_shape region ba reg hreg
  have hreglen : reg.length ≤ 1 := by
    rcases hreg_shape with rfl | ⟨b, rfl⟩ | ⟨codes, rfl⟩ <;> simp
  have hregkind : ∀ c ∈ reg, Cond.isRegional c = true := by
    rcases hreg_shape with rfl | ⟨b, rfl⟩ | ⟨codes, rfl⟩ <;> simp [Cond.isRegional]
  have haffshape := affiliate_conds_shape affiliate
  have hafflen : (affiliate_conds affiliate).length ≤ 1 := by
    rcases haffshape with h | ⟨b, h⟩ <;> rw [h] <;> simp
  have haffkind : ∀ c ∈ affiliate_conds affiliate, Cond.isAffiliate c = true := by
    rcases haffshape with h | ⟨b, h⟩ <;> rw [h] <;> simp [Cond.isAffiliate]
  have hrtshape := rate_type_conds_shape rate_type
  have hrtlen : (rate_type_conds rate_type).length ≤ 1 := by
    rcases hrtshape with h | ⟨c, h⟩ <;> rw [h] <;> simp
  have hrtkind : ∀ c ∈ rate_type_conds rate_type, Cond.isRate c = true := by
    rcases hrtshape with h | ⟨c, h⟩ <;> rw [h] <;> simp [Cond.isRate]
  have hsvshape := service_conds_shape service_type
  have hsvlen : (service_conds service_type).length ≤ 1 := by
    rcases hsvshape with h | ⟨c, h⟩ <;> rw [h] <;> simp
  have hsvkind : ∀ c ∈ service_conds service_type, Cond.isService c = true := by
    rcases hsvshape with h | ⟨c, h⟩ <;> rw [h] <;> simp [Cond.isService]
  refine ⟨_, hb, rfl, ?_, ?_,
    reg, affiliate_conds affiliate, rate_type_conds rate_type, service_conds service_type,
    rfl, hreglen, hregkind, hafflen, haffkind, hrtlen, hrtkind, hsvlen, hsvkind⟩
  · simp
  · simp only [List.length_cons, List.length_append]
    omega

/-- C10 witness: the theorem at {CAPACITY, California (CISO), wildcard
    scope, Affiliate, Cost-Based, Firm, years=(2020,2022)}. -/
theorem c10_witness :
    ∃ l, build_where_clause "CAPACITY" "California (CISO)" "All BAs in California (CISO)"
          "Affiliate" "Cost-Based" "Firm" (2020, 2022) = some l ∧
      l.take 5 = [Cond.productEq "CAPACITY", Cond.termLT,
        Cond.unitEq (if "CAPACITY" = "ENERGY" then "$/MWH" else "$/KW-MO"), Cond.ratePos,
        Cond.yearBetween 2020 2022] ∧
      5 ≤ l.length ∧ l.length ≤ 9 ∧
      ∃ r a t s, l.drop 5 = r ++ (a ++ (t ++ s)) ∧
        r.length ≤ 1 ∧ (∀ c ∈ r, Cond.isRegional c = true) ∧
        a.length ≤ 1 ∧ (∀ c ∈ a, Cond.isAffiliate c = true) ∧
        t.length ≤ 1 ∧ (∀ c ∈ t, Cond.isRate c = true) ∧
        s.length ≤ 1 ∧ (∀ c ∈ s, Cond.isService c = true) :=
  c10_predicate_shape "CAPACITY" "California (CISO)" "All BAs in California (CISO)"
    "Affiliate" "Cost-Based" "Firm" (2020, 2022) (by decide) (by decide) (by decide)
    (by decide) (by decide)
